import Mathlib

/-!
Verification of the Video Analyzer frame-sampling core.

This file is a shallow embedding of the frame-sampling and budget-planning
engine of the repository (src/app/utils/video.py,
src/app/services/video_analyzer.py, src/app/config.py,
src/app/schemas/video.py), together with theorems settling the spec claims.

Modelling conventions:
* Python `int` is `ℤ`; Python `float` is modelled exactly as `ℚ`.
* Python `or`-defaulting on optional / falsy values is made explicit by the
  `pyOr*` helpers (`None` and `0` / `0.0` / `""` / `[]` are falsy).
* `int(x)` applied to a nonnegative real truncates, i.e. floors; the general
  truncation toward zero is `truncRat`.
* OpenCV side effects are oracles: frame decoding is `read : ℤ → Option Frame`
  (`None` = seek/decode failure at that index) and JPEG encoding is
  `encode : Frame → Option String` (`None` = `cv2.imencode` failure, raised as
  `ValueError` in `_encode_frame` and caught by the sampling loop).
* The chat-completion response is its list of choices, each carrying an
  optional message content.
-/

namespace VideoApp

/-- The empty Python string. -/
def emptyString : String :=
  ""

/-- Dataclass `FrameSample` (src/app/utils/video.py): a sampled frame that can
be sent to the vision model. -/
structure FrameSample where
  index : ℤ
  timestamp_sec : Option ℚ
  data_url : String
  deriving DecidableEq

/-- Dataclass `VideoMetadata` (src/app/utils/video.py): basic video metadata
used to derive sampling density. -/
structure VideoMetadata where
  frame_count : ℤ
  fps : ℚ
  duration_sec : Option ℚ
  deriving DecidableEq

/-- The configuration fields of `Settings` (src/app/config.py) that the
analysis core consumes. -/
structure Settings where
  openai_model : String
  frame_samples : ℤ
  seconds_per_frame : ℚ
  max_frame_samples : ℤ
  max_tokens : ℤ
  deriving DecidableEq

/-- Response model `VideoAnalysisResponse` (src/app/schemas/video.py). -/
structure VideoAnalysisResponse where
  summary : String
  frames_used : ℕ
  model : String
  frame_timestamps : List ℚ
  prompt : String
  total_frames : Option ℤ
  video_duration_sec : Option ℚ
  sampling_interval_sec : ℚ
  requested_frame_samples : ℤ
  deriving DecidableEq

/-- Python `x or d` for an optional integer (`None` and `0` are falsy). -/
def pyOrInt (x : Option ℤ) (d : ℤ) : ℤ :=
  match x with
  | none => d
  | some n => if n = 0 then d else n

/-- Python `x or d` for an optional rational (`None` and `0.0` are falsy). -/
def pyOrRat (x : Option ℚ) (d : ℚ) : ℚ :=
  match x with
  | none => d
  | some q => if q = 0 then d else q

/-- Python `x or d` for an optional string (`None` and `""` are falsy). -/
def pyOrStr (x : Option String) (d : String) : String :=
  match x with
  | none => d
  | some s => if s = emptyString then d else s

/-- Python `x or d` for an optional list (`None` and `[]` are falsy). -/
def pyOrList (x : Option (List ℤ)) (d : List ℤ) : List ℤ :=
  match x with
  | none => d
  | some l => if l = [] then d else l

/-- Python `int()` applied to a rational: truncation toward zero. -/
def truncRat (q : ℚ) : ℤ :=
  if q < 0 then -⌊-q⌋ else ⌊q⌋

/-- Selector `_frame_indices(total_frames, samples)` (src/app/utils/video.py
lines 43-50).  `sorted({int(i * step) for i in range(samples)})` is embedded as an
ascending sort of the deduplicated image values; with `step = total_frames /
samples` exact, `int(i * step) = i * total_frames / samples` by nonnegative
truncation.  All produced indices are nonnegative, so the result lives in
`List ℕ`. -/
def frame_indices (total_frames samples : ℤ) : List ℕ :=
  if total_frames ≤ 0 ∨ samples ≤ 0 then
    []
  else if total_frames ≤ samples then
    List.range total_frames.toNat
  else
    List.insertionSort (· ≤ ·)
      (((List.range samples.toNat).map
        (fun i => i * total_frames.toNat / samples.toNat)).dedup)

/-- Reader `get_video_metadata` (src/app/utils/video.py lines 61-72), as a
function of the values the decoder reports:
`total_frames = int(cap.get(CAP_PROP_FRAME_COUNT))` and
`fps = float(cap.get(CAP_PROP_FPS) or 0.0)`. -/
def get_video_metadata (total_frames : ℤ) (fps : ℚ) : VideoMetadata :=
  { frame_count := total_frames
    fps := fps
    duration_sec := if 0 < fps then some ((total_frames : ℚ) / fps) else none }

/-- Timestamp computation `timestamp = (idx / fps) if fps else None`
(src/app/utils/video.py line 94): `0.0` is falsy. -/
def frameTimestamp (fps : ℚ) (idx : ℤ) : Option ℚ :=
  if fps = 0 then none else some ((idx : ℚ) / fps)

section Extraction

variable {Frame : Type}

/-- The body of the sampling loop for one index (src/app/utils/video.py lines
89-99): seek/decode via `read`; on failure `continue`; encode via `encode`; on
`ValueError` `continue`; otherwise append the `FrameSample`. -/
def frameResult (read : ℤ → Option Frame) (encode : Frame → Option String)
    (fps : ℚ) (idx : ℤ) : Option FrameSample :=
  match read idx with
  | none => none
  | some frame =>
    match encode frame with
    | none => none
    | some url => some { index := idx, timestamp_sec := frameTimestamp fps idx, data_url := url }

/-- The sampling loop of `sample_video_frames` (src/app/utils/video.py lines
87-101): iterate over the indices in order, collecting the successful
samples. -/
def extractLoop (read : ℤ → Option Frame) (encode : Frame → Option String)
    (fps : ℚ) : List ℤ → List FrameSample
  | [] => []
  | idx :: rest =>
    match frameResult read encode fps idx with
    | none => extractLoop read encode fps rest
    | some s => s :: extractLoop read encode fps rest

/-- Extractor `sample_video_frames` (src/app/utils/video.py lines 75-103), as a
function of the decoding oracles and the metadata the capture reports.
`indices = indices or _frame_indices(total_frames, sample_count)` uses Python
list truthiness: an empty explicit list falls back to the selector. -/
def sample_video_frames (read : ℤ → Option Frame) (encode : Frame → Option String)
    (total_frames : ℤ) (fps : ℚ) (sample_count : ℤ)
    (indices : Option (List ℤ)) : List FrameSample :=
  extractLoop read encode fps
    (pyOrList indices ((frame_indices total_frames sample_count).map (fun n => (n : ℤ))))

end Extraction

/-- Budget planner `VideoAnalyzer._choose_sample_count`
(src/app/services/video_analyzer.py lines 73-98).  Python truthiness:
`frame_samples_override or settings.frame_samples` treats `None` and `0` as
falsy, `interval_override or settings.seconds_per_frame` treats `None` and
`0.0` as falsy, and `if metadata.duration_sec:` is false for both `None` and
`0.0`.  `int(metadata.duration_sec / interval)` truncates toward zero. -/
def choose_sample_count (settings : Settings) (metadata : VideoMetadata)
    (frame_samples_override : Option ℤ) (interval_override : Option ℚ) : ℤ × ℚ :=
  let baseline := max (pyOrInt frame_samples_override settings.frame_samples) 1
  let interval := pyOrRat interval_override settings.seconds_per_frame
  let time_based :=
    match metadata.duration_sec with
    | none => baseline
    | some d => if d = 0 then baseline else truncRat (d / interval) + 1
  let target := max baseline time_based
  let target1 := if 0 < metadata.frame_count then min target metadata.frame_count else target
  let target2 := min target1 settings.max_frame_samples
  (max target2 1, interval)

/-- Budget planner recipe exactly as the spec words it (spec section 4.4 /
claim C2): `time_based = baseline` if duration unknown, else
`floor(duration_sec / interval) + 1`; then `max` with baseline, clamp by
`frame_count` when positive, clamp by `max_frame_samples`, final `max` with 1.
Used only to compare the spec recipe against `choose_sample_count`. -/
def plan_spec (settings : Settings) (metadata : VideoMetadata)
    (frame_samples_override : Option ℤ) (interval_override : Option ℚ) : ℤ × ℚ :=
  let baseline := max (pyOrInt frame_samples_override settings.frame_samples) 1
  let interval := pyOrRat interval_override settings.seconds_per_frame
  let time_based :=
    match metadata.duration_sec with
    | none => baseline
    | some d => ⌊d / interval⌋ + 1
  let target := max baseline time_based
  let target1 := if 0 < metadata.frame_count then min target metadata.frame_count else target
  let target2 := min target1 settings.max_frame_samples
  (max target2 1, interval)

/-- Python whitespace characters stripped by `str.strip()` (ASCII range). -/
def isPySpace (c : Char) : Bool :=
  c == ' ' || c == '\t' || c == '\n' || c == '\r' || c == '\x0b' || c == '\x0c'

/-- Python `s.strip()`: remove leading and trailing whitespace. -/
def pyStrip (s : String) : String :=
  String.mk (((s.data.dropWhile isPySpace).reverse.dropWhile isPySpace).reverse)

/-- Fixed default instruction (src/app/services/video_analyzer.py lines 35-38;
the two adjacent Python string literals concatenate). -/
def defaultInstruction : String :=
  "Provide a rich, chronological explanation of the video. Summarize intent and outcome, list scene changes, key actions, subjects/objects, and notable visual cues. Reference timestamps when visible."

/-- Instruction resolution
`user_instruction = instruction.strip() if instruction else (DEFAULT)`
(src/app/services/video_analyzer.py lines 35-38).  Python truthiness: `None`
and the empty string are falsy; any other string — including a whitespace-only
one — is truthy and gets stripped. -/
def resolveInstruction (instruction : Option String) : String :=
  match instruction with
  | none => defaultInstruction
  | some s => if s = emptyString then defaultInstruction else pyStrip s

/-- Content extraction
`content = completion.choices[0].message.content if completion.choices else ""`
(src/app/services/video_analyzer.py line 60): an empty choice list is falsy
and yields the empty string; otherwise the first choice's optional content. -/
def completionContent (choices : List (Option String)) : Option String :=
  match choices with
  | [] => some emptyString
  | c :: _ => c

/-- Message raised as `ValueError` when no frames could be sampled
(src/app/services/video_analyzer.py line 33). -/
def noFramesMessage : String :=
  "Could not sample frames from the provided video."

/-- Construction of the `VideoAnalysisResponse`
(src/app/services/video_analyzer.py lines 61-71).  `summary=content or ""`
maps a missing or empty content to the empty string;
`total_frames=metadata.frame_count or None` maps the falsy `0` to `None`. -/
def assembleResponse (settings : Settings) (metadata : VideoMetadata)
    (frames : List FrameSample) (choices : List (Option String))
    (user_instruction : String) (sample_target : ℤ) (effective_interval : ℚ) :
    VideoAnalysisResponse :=
  { summary := pyOrStr (completionContent choices) emptyString
    frames_used := frames.length
    model := settings.openai_model
    frame_timestamps := frames.filterMap (fun f => f.timestamp_sec)
    prompt := user_instruction
    total_frames := if metadata.frame_count = 0 then none else some metadata.frame_count
    video_duration_sec := metadata.duration_sec
    sampling_interval_sec := effective_interval
    requested_frame_samples := sample_target }

/-- Orchestrator `VideoAnalyzer.analyze`
(src/app/services/video_analyzer.py lines 19-71) as a function of the decoding
and inference oracles.  `metadata` is what `get_video_metadata` returned for
the video; the extractor reopens the same video, so it sees the same
`frame_count` and `fps`.  `choices` is the inference response.  The
`Except.error` value is the raised `ValueError`, which the endpoint
(src/app/api/v1/endpoints/video.py) surfaces as an HTTP 400 client error. -/
def analyze {Frame : Type} (settings : Settings)
    (read : ℤ → Option Frame) (encode : Frame → Option String)
    (metadata : VideoMetadata) (choices : List (Option String))
    (instruction : Option String) (frame_samples : Option ℤ)
    (seconds_per_frame : Option ℚ) : Except String VideoAnalysisResponse :=
  let plan := choose_sample_count settings metadata frame_samples seconds_per_frame
  let frames := sample_video_frames read encode metadata.frame_count metadata.fps plan.1 none
  if frames = [] then
    Except.error noFramesMessage
  else
    Except.ok (assembleResponse settings metadata frames choices
      (resolveInstruction instruction) plan.1 plan.2)

/-! ### Concrete values used in witnesses -/

/-- A whitespace-only instruction string. -/
def whitespaceOnly : String :=
  " "

/-- Decoder oracle that fails exactly at index 1. -/
def readFailAtOne : ℤ → Option Unit :=
  fun i => if i = 1 then none else some ()

/-- Decoder oracle that always decodes. -/
def readAlways : ℤ → Option Unit :=
  fun _ => some ()

/-- Encoder oracle that always succeeds. -/
def encodeAlways : Unit → Option String :=
  fun _ => some emptyString

/-- A one-frame configuration. -/
def settingsOne : Settings :=
  { openai_model := emptyString, frame_samples := 1, seconds_per_frame := 1,
    max_frame_samples := 1, max_tokens := 1 }

/-- Metadata of a one-frame video with unknown fps. -/
def metadataOne : VideoMetadata :=
  { frame_count := 1, fps := 0, duration_sec := none }

/-- The response `analyze` assembles for `settingsOne` / `metadataOne` with an
empty choice list and no instruction. -/
def responseOne : VideoAnalysisResponse :=
  { summary := emptyString, frames_used := 1, model := emptyString,
    frame_timestamps := [], prompt := defaultInstruction,
    total_frames := some 1, video_duration_sec := none,
    sampling_interval_sec := 1, requested_frame_samples := 1 }

/-! ### Selector lemmas -/

/-- A list sorted under `≤` without duplicates is strictly increasing. -/
theorem sorted_lt_of_sorted_le_nodup {l : List ℕ}
    (h1 : l.Sorted (· ≤ ·)) (h2 : l.Nodup) : l.Sorted (· < ·) := by
  induction l with
  | nil => simp
  | cons a t ih =>
    rw [List.sorted_cons] at h1 ⊢
    rw [List.nodup_cons] at h2
    exact ⟨fun b hb => lt_of_le_of_ne (h1.1 b hb) (fun he => h2.1 (he ▸ hb)),
      ih h1.2 h2.2⟩

/-- A duplicate-free list of naturals all below `n` has at most `n` elements. -/
theorem length_le_of_nodup_lt {l : List ℕ} {n : ℕ} (hnd : l.Nodup)
    (hb : ∀ x ∈ l, x < n) : l.length ≤ n := by
  have hsub : l.toFinset ⊆ Finset.range n := by
    intro x hx
    rw [List.mem_toFinset] at hx
    exact Finset.mem_range.mpr (hb x hx)
  have hcard := Finset.card_le_card hsub
  rwa [List.toFinset_card_of_nodup hnd, Finset.card_range] at hcard

/-- Unfolding of the selector in its downsampling branch. -/
theorem frame_indices_downsample {total_frames samples : ℤ}
    (h2 : 0 < samples) (h3 : samples < total_frames) :
    frame_indices total_frames samples =
      List.insertionSort (· ≤ ·)
        (((List.range samples.toNat).map
          (fun i => i * total_frames.toNat / samples.toNat)).dedup) := by
  have hc1 : ¬(total_frames ≤ 0 ∨ samples ≤ 0) := by omega
  have hc2 : ¬(total_frames ≤ samples) := by omega
  simp only [frame_indices, if_neg hc1, if_neg hc2]

/-- Unfolding of the selector in its full-coverage branch. -/
theorem frame_indices_full {total_frames samples : ℤ} (htf : 0 ≤ total_frames)
    (hle : total_frames ≤ samples) :
    frame_indices total_frames samples = List.range total_frames.toNat := by
  by_cases hzero : total_frames ≤ 0 ∨ samples ≤ 0
  · have htf0 : total_frames = 0 := by omega
    subst htf0
    simp [frame_indices, if_pos hzero]
  · simp only [frame_indices, if_neg hzero, if_pos hle]

/-- In the downsampling branch every selected index is below the frame
count. -/
theorem mem_frame_indices_lt {total_frames samples : ℤ} (h2 : 0 < samples)
    (h3 : samples < total_frames) {x : ℕ}
    (hx : x ∈ frame_indices total_frames samples) : x < total_frames.toNat := by
  rw [frame_indices_downsample h2 h3, List.mem_insertionSort, List.mem_dedup,
    List.mem_map] at hx
  obtain ⟨i, hi, rfl⟩ := hx
  rw [List.mem_range] at hi
  have hs : 0 < samples.toNat := by omega
  have htf : 0 < total_frames.toNat := by omega
  rw [Nat.div_lt_iff_lt_mul hs]
  calc i * total_frames.toNat
      < samples.toNat * total_frames.toNat := mul_lt_mul_of_pos_right hi htf
    _ = total_frames.toNat * samples.toNat := Nat.mul_comm _ _

/-- In the downsampling branch the selector output has no duplicates. -/
theorem frame_indices_nodup_downsample {total_frames samples : ℤ}
    (h2 : 0 < samples) (h3 : samples < total_frames) :
    (frame_indices total_frames samples).Nodup := by
  rw [frame_indices_downsample h2 h3]
  exact (List.perm_insertionSort _ _).nodup_iff.mpr (List.nodup_dedup _)

/-- C1: for every `total_frames ≥ 0` and `samples ≥ 0`, the Frame Index
Selector's output is a strictly increasing sequence, every element lies in
`[0, total_frames)`, and its length is at most `samples` and at most
`total_frames`. -/
theorem c1_selector_output_invariants (total_frames samples : ℤ)
    (htf : 0 ≤ total_frames) (hs : 0 ≤ samples) :
    (frame_indices total_frames samples).Sorted (· < ·) ∧
    (∀ x ∈ frame_indices total_frames samples, 0 ≤ (x : ℤ) ∧ (x : ℤ) < total_frames) ∧
    ((frame_indices total_frames samples).length : ℤ) ≤ samples ∧
    ((frame_indices total_frames samples).length : ℤ) ≤ total_frames := by
  by_cases hzero : total_frames ≤ 0 ∨ samples ≤ 0
  · have he : frame_indices total_frames samples = [] := by
      simp [frame_indices, if_pos hzero]
    rw [he]
    refine ⟨List.sorted_nil, by simp, by simp; omega, by simp; omega⟩
  · have h1 : 0 < total_frames := by omega
    have h2 : 0 < samples := by omega
    by_cases hle : total_frames ≤ samples
    · rw [frame_indices_full htf hle]
      refine ⟨List.sorted_lt_range _, ?_, ?_, ?_⟩
      · intro x hx
        rw [List.mem_range] at hx
        omega
      · rw [List.length_range]
        omega
      · rw [List.length_range]
        omega
    · have hlt : samples < total_frames := by omega
      have hmem : ∀ x ∈ frame_indices total_frames samples, x < total_frames.toNat :=
        fun x hx => mem_frame_indices_lt h2 hlt hx
      have hnd := frame_indices_nodup_downsample h2 hlt
      refine ⟨?_, ?_, ?_, ?_⟩
      · rw [frame_indices_downsample h2 hlt]
        exact sorted_lt_of_sorted_le_nodup (List.sorted_insertionSort _ _)
          (by rw [← frame_indices_downsample h2 hlt]; exact hnd)
      · intro x hx
        have := hmem x hx
        omega
      · have hlen : (frame_indices total_frames samples).length ≤ samples.toNat := by
          rw [frame_indices_downsample h2 hlt]
          calc (List.insertionSort (· ≤ ·)
                (((List.range samples.toNat).map
                  (fun i => i * total_frames.toNat / samples.toNat)).dedup)).length
              = (((List.range samples.toNat).map
                  (fun i => i * total_frames.toNat / samples.toNat)).dedup).length :=
                (List.perm_insertionSort _ _).length_eq
            _ ≤ ((List.range samples.toNat).map
                  (fun i => i * total_frames.toNat / samples.toNat)).length :=
                (List.dedup_sublist _).length_le
            _ = samples.toNat := by simp
        omega
      · have hlen := length_le_of_nodup_lt hnd hmem
        omega

/-- Witness for C1 at `total_frames = 100`, `samples = 5`. -/
theorem c1_selector_output_invariants_witness :
    (frame_indices 100 5).Sorted (· < ·) ∧
    (∀ x ∈ frame_indices 100 5, 0 ≤ (x : ℤ) ∧ (x : ℤ) < 100) ∧
    ((frame_indices 100 5).length : ℤ) ≤ 5 ∧
    ((frame_indices 100 5).length : ℤ) ≤ 100 :=
  c1_selector_output_invariants 100 5 (by decide) (by decide)

/-- C6: the Selector returns the empty sequence when `total_frames ≤ 0` or
`samples ≤ 0`; returns every index `0 .. total_frames - 1` when
`samples ≥ total_frames`; and `select(100, 5) = [0, 20, 40, 60, 80]`. -/
theorem c6_selector_cases :
    (∀ total_frames samples : ℤ, total_frames ≤ 0 ∨ samples ≤ 0 →
      frame_indices total_frames samples = []) ∧
    (∀ total_frames samples : ℤ, 0 ≤ total_frames → total_frames ≤ samples →
      frame_indices total_frames samples = List.range total_frames.toNat) ∧
    frame_indices 100 5 = [0, 20, 40, 60, 80] ∧
    frame_indices 0 5 = [] ∧
    frame_indices 5 0 = [] := by
  refine ⟨?_, ?_, by decide, by decide, by decide⟩
  · intro tf s h
    simp [frame_indices, if_pos h]
  · intro tf s h1 h2
    exact frame_indices_full h1 h2

/-- Witness for C6: the empty-input and full-coverage clauses at concrete
inputs. -/
theorem c6_selector_cases_witness :
    frame_indices (-1) 5 = [] ∧ frame_indices 10 20 = List.range (10 : ℤ).toNat :=
  ⟨c6_selector_cases.1 (-1) 5 (Or.inl (by decide)),
    c6_selector_cases.2.1 10 20 (by decide) (by decide)⟩

/-! ### Budget planner lemmas -/

/-- Truncation toward zero agrees with the floor on nonnegative rationals. -/
theorem truncRat_eq_floor {q : ℚ} (h : 0 ≤ q) : truncRat q = ⌊q⌋ := by
  rw [truncRat, if_neg (not_lt.mpr h)]

/-- The planner as coded and the planner recipe as the spec words it agree on
every input, provided the effective interval is positive (the endpoint rejects
non-positive overrides, and Python would raise on an interval of zero).  The
two descriptions differ only in `time_based` at a known-but-zero duration
(falsy in Python) and at negative durations (truncation vs. floor), and in
both situations the `max` with the baseline erases the difference. -/
theorem planner_eq_spec (settings : Settings) (metadata : VideoMetadata)
    (fso : Option ℤ) (io : Option ℚ)
    (hint : 0 < pyOrRat io settings.seconds_per_frame) :
    choose_sample_count settings metadata fso io = plan_spec settings metadata fso io := by
  simp only [choose_sample_count, plan_spec]
  cases hd : metadata.duration_sec with
  | none => rfl
  | some d =>
    have hb1 : (1 : ℤ) ≤ max (pyOrInt fso settings.frame_samples) 1 := le_max_right _ _
    have key : max (max (pyOrInt fso settings.frame_samples) 1)
        (if d = 0 then max (pyOrInt fso settings.frame_samples) 1
         else truncRat (d / pyOrRat io settings.seconds_per_frame) + 1) =
        max (max (pyOrInt fso settings.frame_samples) 1)
        (⌊d / pyOrRat io settings.seconds_per_frame⌋ + 1) := by
      by_cases hd0 : d = 0
      · subst hd0
        rw [if_pos rfl, zero_div, Int.floor_zero, max_self, zero_add, max_eq_left hb1]
      · rw [if_neg hd0]
        rcases lt_trichotomy d 0 with hneg | h0 | hpos
        · have hq : d / pyOrRat io settings.seconds_per_frame < 0 :=
            div_neg_of_neg_of_pos hneg hint
          have h1 : truncRat (d / pyOrRat io settings.seconds_per_frame) + 1 ≤ 1 := by
            rw [truncRat, if_pos hq]
            have hf : (0 : ℤ) ≤ ⌊-(d / pyOrRat io settings.seconds_per_frame)⌋ :=
              Int.floor_nonneg.mpr (by linarith)
            omega
          have h2 : ⌊d / pyOrRat io settings.seconds_per_frame⌋ + 1 ≤ 1 := by
            have hf : ⌊d / pyOrRat io settings.seconds_per_frame⌋ ≤ 0 :=
              Int.floor_nonpos (le_of_lt hq)
            omega
          rw [max_eq_left (le_trans h1 hb1), max_eq_left (le_trans h2 hb1)]
        · exact absurd h0 hd0
        · have hq : 0 ≤ d / pyOrRat io settings.seconds_per_frame :=
            le_of_lt (div_pos hpos hint)
          rw [truncRat_eq_floor hq]
    rw [key]

/-- C2: the Sample Budget Planner computes `target_count` by exactly the
spec's steps (baseline, interval, time-based count, `max`, clamps, final
`max` with 1), and on `duration_sec = 300`, `interval = 2.0`,
`baseline = 20`, `max = 120`, `frame_count = 10000` it yields
`time_based = 151` and `target_count = 120`. -/
theorem c2_planner_recipe (settings : Settings) (metadata : VideoMetadata)
    (frame_samples_override : Option ℤ) (interval_override : Option ℚ)
    (hint : 0 < pyOrRat interval_override settings.seconds_per_frame) :
    choose_sample_count settings metadata frame_samples_override interval_override =
      plan_spec settings metadata frame_samples_override interval_override ∧
    truncRat ((300 : ℚ) / 2) + 1 = 151 ∧
    (choose_sample_count
      { openai_model := emptyString, frame_samples := 20, seconds_per_frame := 2,
        max_frame_samples := 120, max_tokens := 5000 }
      { frame_count := 10000, fps := 30, duration_sec := some 300 }
      none none).1 = 120 := by
  refine ⟨planner_eq_spec settings metadata frame_samples_override interval_override hint,
    by norm_num [truncRat], ?_⟩
  norm_num [choose_sample_count, truncRat, pyOrInt, pyOrRat]

/-- Witness for C2 at the spec's own concrete planner example. -/
theorem c2_planner_recipe_witness :
    (choose_sample_count
      { openai_model := emptyString, frame_samples := 20, seconds_per_frame := 2,
        max_frame_samples := 120, max_tokens := 5000 }
      { frame_count := 10000, fps := 30, duration_sec := some 300 }
      none none =
      plan_spec
      { openai_model := emptyString, frame_samples := 20, seconds_per_frame := 2,
        max_frame_samples := 120, max_tokens := 5000 }
      { frame_count := 10000, fps := 30, duration_sec := some 300 }
      none none) ∧
    truncRat ((300 : ℚ) / 2) + 1 = 151 ∧
    (choose_sample_count
      { openai_model := emptyString, frame_samples := 20, seconds_per_frame := 2,
        max_frame_samples := 120, max_tokens := 5000 }
      { frame_count := 10000, fps := 30, duration_sec := some 300 }
      none none).1 = 120 :=
  c2_planner_recipe
    { openai_model := emptyString, frame_samples := 20, seconds_per_frame := 2,
      max_frame_samples := 120, max_tokens := 5000 }
    { frame_count := 10000, fps := 30, duration_sec := some 300 }
    none none (by norm_num [pyOrRat])

/-- Counterexample to C3 as stated: the claim quantifies over every
configuration, but with configured `max_frame_samples = 0` the planner's final
`max(target, 1)` returns `target_count = 1`, which exceeds the configured
maximum of `0`. -/
theorem c3_ceiling_counterexample :
    (choose_sample_count
      { openai_model := emptyString, frame_samples := 20, seconds_per_frame := 2,
        max_frame_samples := 0, max_tokens := 5000 }
      { frame_count := 100, fps := 30, duration_sec := none }
      none none).1 = 1 ∧
    ¬ ((choose_sample_count
      { openai_model := emptyString, frame_samples := 20, seconds_per_frame := 2,
        max_frame_samples := 0, max_tokens := 5000 }
      { frame_count := 100, fps := 30, duration_sec := none }
      none none).1 ≤
      (0 : ℤ)) := by
  constructor
  · decide
  · decide

/-- C3 (amended): for every metadata input, every pair of optional overrides
and every configuration, `target_count` is at least 1 and at most
`frame_count` whenever `frame_count` is positive; and it is at most the
configured `max_frame_samples` whenever that configured maximum is at least
1. -/
theorem c3_planner_invariants (settings : Settings) (metadata : VideoMetadata)
    (fso : Option ℤ) (io : Option ℚ) :
    1 ≤ (choose_sample_count settings metadata fso io).1 ∧
    (0 < metadata.frame_count →
      (choose_sample_count settings metadata fso io).1 ≤ metadata.frame_count) ∧
    (1 ≤ settings.max_frame_samples →
      (choose_sample_count settings metadata fso io).1 ≤ settings.max_frame_samples) := by
  simp only [choose_sample_count]
  cases metadata.duration_sec with
  | none => split_ifs <;> constructor <;> omega
  | some d => split_ifs <;> constructor <;> omega

/-- Witness for C3 (amended) at a concrete configuration and metadata. -/
theorem c3_planner_invariants_witness :
    1 ≤ (choose_sample_count
      { openai_model := emptyString, frame_samples := 20, seconds_per_frame := 2,
        max_frame_samples := 120, max_tokens := 5000 }
      { frame_count := 100, fps := 30, duration_sec := none }
      none none).1 ∧
    (choose_sample_count
      { openai_model := emptyString, frame_samples := 20, seconds_per_frame := 2,
        max_frame_samples := 120, max_tokens := 5000 }
      { frame_count := 100, fps := 30, duration_sec := none }
      none none).1 ≤ 100 ∧
    (choose_sample_count
      { openai_model := emptyString, frame_samples := 20, seconds_per_frame := 2,
        max_frame_samples := 120, max_tokens := 5000 }
      { frame_count := 100, fps := 30, duration_sec := none }
      none none).1 ≤ 120 := by
  have h := c3_planner_invariants
    { openai_model := emptyString, frame_samples := 20, seconds_per_frame := 2,
      max_frame_samples := 120, max_tokens := 5000 }
    { frame_count := 100, fps := 30, duration_sec := none }
    none none
  exact ⟨h.1, h.2.1 (by decide), h.2.2 (by decide)⟩

/-! ### Extraction lemmas -/

/-- The sampling loop is the fold collecting per-index successes. -/
theorem extractLoop_eq_filterMap {Frame : Type} (read : ℤ → Option Frame)
    (encode : Frame → Option String) (fps : ℚ) (indices : List ℤ) :
    extractLoop read encode fps indices =
      indices.filterMap (frameResult read encode fps) := by
  induction indices with
  | nil => rfl
  | cons idx rest ih =>
    simp only [extractLoop, List.filterMap_cons]
    cases h : frameResult read encode fps idx <;> simp [h, ih]

/-- C4: a seek/decode failure or an encoding failure at an individual
selected index skips only that index — the surrounding indices' results are
untouched and the extraction never aborts — and the no-frames `ValueError`
(surfaced to the caller as a client error) is raised if and only if the final
extracted sequence is empty. -/
theorem c4_extraction_failure_policy {Frame : Type} (read : ℤ → Option Frame)
    (encode : Frame → Option String) (fps : ℚ) (pre post : List ℤ) (idx : ℤ)
    (hfail : read idx = none ∨ ∃ f, read idx = some f ∧ encode f = none) :
    extractLoop read encode fps (pre ++ idx :: post) =
      extractLoop read encode fps pre ++ extractLoop read encode fps post ∧
    (∀ (settings : Settings) (metadata : VideoMetadata)
      (choices : List (Option String)) (instruction : Option String)
      (fso : Option ℤ) (io : Option ℚ),
      analyze settings read encode metadata choices instruction fso io =
          Except.error noFramesMessage ↔
        sample_video_frames read encode metadata.frame_count metadata.fps
          (choose_sample_count settings metadata fso io).1 none = []) := by
  constructor
  · have hres : frameResult read encode fps idx = none := by
      rcases hfail with h | ⟨f, hf, he⟩
      · simp [frameResult, h]
      · simp [frameResult, hf, he]
    rw [extractLoop_eq_filterMap, extractLoop_eq_filterMap, extractLoop_eq_filterMap,
      List.filterMap_append, List.filterMap_cons, hres]
  · intro settings metadata choices instruction fso io
    simp only [analyze]
    split
    · simp_all
    · simp_all

/-- Witness for C4: the decoder fails at index 1 of `[0, 1, 2]`, and only
index 1 is skipped. -/
theorem c4_extraction_failure_policy_witness :
    extractLoop readFailAtOne encodeAlways 0 ([0] ++ 1 :: [2]) =
      extractLoop readFailAtOne encodeAlways 0 [0] ++
        extractLoop readFailAtOne encodeAlways 0 [2] ∧
    (∀ (settings : Settings) (metadata : VideoMetadata)
      (choices : List (Option String)) (instruction : Option String)
      (fso : Option ℤ) (io : Option ℚ),
      analyze settings readFailAtOne encodeAlways metadata choices instruction fso io =
          Except.error noFramesMessage ↔
        sample_video_frames readFailAtOne encodeAlways metadata.frame_count metadata.fps
          (choose_sample_count settings metadata fso io).1 none = []) :=
  c4_extraction_failure_policy readFailAtOne encodeAlways 0 [0] [2] 1 (Or.inl rfl)

/-- C9: an explicit but empty index list is falsy in Python, so the extractor
treats it as if no list were supplied and derives the indices from
`(total_frames, sample_count)` via the Frame Index Selector. -/
theorem c9_empty_explicit_indices {Frame : Type} (read : ℤ → Option Frame)
    (encode : Frame → Option String) (total_frames : ℤ) (fps : ℚ)
    (sample_count : ℤ) :
    sample_video_frames read encode total_frames fps sample_count (some []) =
      extractLoop read encode fps
        ((frame_indices total_frames sample_count).map (fun n => (n : ℤ))) ∧
    sample_video_frames read encode total_frames fps sample_count (some []) =
      sample_video_frames read encode total_frames fps sample_count none := by
  constructor <;> rfl

/-! ### Metadata reader -/

/-- C7: the Video Metadata Reader computes `duration_sec = frame_count / fps`
exactly when `fps > 0` and reports it as absent otherwise; no division happens
at `fps = 0` and no duration is fabricated when fps is unknown. -/
theorem c7_metadata_duration (total_frames : ℤ) (fps : ℚ) :
    (0 < fps →
      (get_video_metadata total_frames fps).duration_sec =
        some ((total_frames : ℚ) / fps)) ∧
    (¬ 0 < fps → (get_video_metadata total_frames fps).duration_sec = none) := by
  constructor
  · intro h
    simp [get_video_metadata, if_pos h]
  · intro h
    simp [get_video_metadata, if_neg h]

/-- Witness for C7 at `fps = 30` (duration present) and `fps = 0` (duration
absent). -/
theorem c7_metadata_duration_witness :
    (get_video_metadata 300 30).duration_sec = some (((300 : ℤ) : ℚ) / 30) ∧
    (get_video_metadata 300 0).duration_sec = none :=
  ⟨(c7_metadata_duration 300 30).1 (by norm_num),
    (c7_metadata_duration 300 0).2 (by norm_num)⟩

/-! ### Instruction resolution -/

/-- Lemma: stripping a whitespace-only string yields the empty string. -/
theorem pyStrip_all_space {s : String} (h : ∀ c ∈ s.data, isPySpace c) :
    pyStrip s = emptyString := by
  rw [pyStrip]
  have h1 : s.data.dropWhile isPySpace = [] :=
    List.dropWhile_eq_nil_iff.mpr h
  rw [h1]
  rfl

/-- Counterexample to C5 as stated: a whitespace-only instruction is truthy in
Python, so the orchestrator strips it to the empty string instead of falling
back to the default instruction. -/
theorem c5_whitespace_counterexample :
    resolveInstruction (some whitespaceOnly) = emptyString ∧
    resolveInstruction (some whitespaceOnly) ≠ defaultInstruction := by
  constructor
  · rfl
  · decide

/-- C5 (amended): the orchestrator resolves the instruction to the
caller-supplied text trimmed of surrounding whitespace whenever the raw
instruction is non-empty, and to the fixed default instruction when it is
absent or empty; in particular a whitespace-only instruction resolves to the
empty string, not the default. -/
theorem c5_instruction_resolution (s : String) :
    resolveInstruction none = defaultInstruction ∧
    resolveInstruction (some emptyString) = defaultInstruction ∧
    (s ≠ emptyString → resolveInstruction (some s) = pyStrip s) ∧
    (s ≠ emptyString → (∀ c ∈ s.data, isPySpace c) →
      resolveInstruction (some s) = emptyString) := by
  refine ⟨rfl, rfl, ?_, ?_⟩
  · intro h
    simp [resolveInstruction, h]
  · intro h hsp
    simp [resolveInstruction, h, pyStrip_all_space hsp]

/-- Witness for C5 (amended) at the whitespace-only instruction. -/
theorem c5_instruction_resolution_witness :
    resolveInstruction (some whitespaceOnly) = pyStrip whitespaceOnly ∧
    resolveInstruction (some whitespaceOnly) = emptyString :=
  ⟨(c5_instruction_resolution whitespaceOnly).2.2.1 (by decide),
    (c5_instruction_resolution whitespaceOnly).2.2.2 (by decide) (by decide)⟩

/-! ### Result assembly -/

/-- C8: whenever analysis succeeds, the assembled result carries the inference
text as summary (the empty string when the response has no content — missing
content never causes an error), the number of frames actually extracted, the
configured model identifier, and exactly the timestamps of extracted frames
whose timestamp is known. -/
theorem c8_result_assembly {Frame : Type} (settings : Settings)
    (read : ℤ → Option Frame) (encode : Frame → Option String)
    (metadata : VideoMetadata) (choices : List (Option String))
    (instruction : Option String) (fso : Option ℤ) (io : Option ℚ)
    (r : VideoAnalysisResponse)
    (h : analyze settings read encode metadata choices instruction fso io =
      Except.ok r) :
    (completionContent choices = none → r.summary = emptyString) ∧
    (∀ t, completionContent choices = some t → r.summary = t) ∧
    r.frames_used = (sample_video_frames read encode metadata.frame_count metadata.fps
      (choose_sample_count settings metadata fso io).1 none).length ∧
    r.model = settings.openai_model ∧
    r.frame_timestamps =
      (sample_video_frames read encode metadata.frame_count metadata.fps
        (choose_sample_count settings metadata fso io).1 none).filterMap
        (fun f => f.timestamp_sec) ∧
    (∀ choices', ∃ r',
      analyze settings read encode metadata choices' instruction fso io =
        Except.ok r') := by
  simp only [analyze] at h
  by_cases hemp : sample_video_frames read encode metadata.frame_count metadata.fps
      (choose_sample_count settings metadata fso io).1 none = []
  · rw [if_pos hemp] at h
    exact absurd h (by simp)
  · rw [if_neg hemp] at h
    injection h with h2
    subst h2
    refine ⟨?_, ?_, rfl, rfl, rfl, ?_⟩
    · intro hn
      simp [assembleResponse, hn, pyOrStr]
    · intro t ht
      by_cases ht0 : t = emptyString
      · simp [assembleResponse, ht, pyOrStr, ht0]
      · simp [assembleResponse, ht, pyOrStr, ht0]
    · intro choices'
      simp only [analyze]
      rw [if_neg hemp]
      exact ⟨_, rfl⟩

/-- Witness for C8 on the concrete one-frame run with an empty choice list. -/
theorem c8_result_assembly_witness :
    (completionContent [] = none → responseOne.summary = emptyString) ∧
    (∀ t, completionContent [] = some t → responseOne.summary = t) ∧
    responseOne.frames_used =
      (sample_video_frames readAlways encodeAlways metadataOne.frame_count metadataOne.fps
        (choose_sample_count settingsOne metadataOne none none).1 none).length ∧
    responseOne.model = settingsOne.openai_model ∧
    responseOne.frame_timestamps =
      (sample_video_frames readAlways encodeAlways metadataOne.frame_count metadataOne.fps
        (choose_sample_count settingsOne metadataOne none none).1 none).filterMap
        (fun f => f.timestamp_sec) ∧
    (∀ choices', ∃ r',
      analyze settingsOne readAlways encodeAlways metadataOne choices' none none none =
        Except.ok r') :=
  c8_result_assembly settingsOne readAlways encodeAlways metadataOne [] none none none
    responseOne (by rfl)

/-- C10: a reported `frame_count` of 0 (the unknown-count encoding) yields an
absent total-frames field in the assembled result, while a positive
`frame_count` is passed through unchanged. -/
theorem c10_total_frames_field (settings : Settings) (metadata : VideoMetadata)
    (frames : List FrameSample) (choices : List (Option String))
    (user_instruction : String) (sample_target : ℤ) (effective_interval : ℚ) :
    (metadata.frame_count = 0 →
      (assembleResponse settings metadata frames choices user_instruction
        sample_target effective_interval).total_frames = none) ∧
    (0 < metadata.frame_count →
      (assembleResponse settings metadata frames choices user_instruction
        sample_target effective_interval).total_frames =
        some metadata.frame_count) := by
  constructor
  · intro h
    simp [assembleResponse, h]
  · intro h
    have hne : metadata.frame_count ≠ 0 := by omega
    simp [assembleResponse, hne]

/-- Witness for C10 at `frame_count = 0` and at `frame_count = 1`. -/
theorem c10_total_frames_field_witness :
    (assembleResponse settingsOne { frame_count := 0, fps := 0, duration_sec := none }
      [] [] emptyString 1 1).total_frames = none ∧
    (assembleResponse settingsOne metadataOne [] [] emptyString 1 1).total_frames =
      some 1 :=
  ⟨(c10_total_frames_field settingsOne
      { frame_count := 0, fps := 0, duration_sec := none } [] [] emptyString 1 1).1 rfl,
    (c10_total_frames_field settingsOne metadataOne [] [] emptyString 1 1).2 (by decide)⟩

end VideoApp
